import Mathlib

/-!
Verification of the RAP specification repository (evidencepub/rap-spec).

The repository declares a set of Pydantic v2 models (research products,
participants, measurements, collections, aggregate statistics) plus two
driver scripts: `scripts/generate_schemas.py` (JSON-Schema projection with
a post-processing step) and `scripts/validate_examples.py` (instance
validation via `Model.model_validate`).

This file gives a shallow embedding of that pipeline:

* `Json` models parsed JSON documents (numbers as exact rationals).
* Dictionary helpers model Python `dict` operations used by
  `post_process_schema` (insertion-order preserving set/pop/get).
* One boolean validator per Pydantic model class, following Pydantic v2
  semantics in the configuration the repository uses everywhere:
  `model_validate` in default (lax) mode, `populate_by_name=True`
  (aliases preferred, field names also accepted), and the default
  `extra="ignore"` policy (unknown keys are skipped, never rejected).

Modelling notes on Pydantic v2 lax mode, which is external library
behaviour (the repository never enables strict mode):
  - a `float` field accepts JSON numbers, booleans, and numeric strings
    (plain decimal forms; exponent notation and surrounding whitespace
    are not modelled — no claim depends on them);
  - an `int` field accepts integral numbers, booleans, and integer strings;
  - a `str` field accepts only JSON strings;
  - `HttpUrl` is modelled as a string with scheme `http://` or `https://`
    followed by a nonempty remainder (full URL parsing is not claim-relevant);
  - `Literal[...]` compares string values for exact equality;
  - unions accept a value iff some member accepts it;
  - `pattern=` constraints: the repository only uses anchored patterns,
    modelled as whole-string matches (Python's `$`-before-final-newline
    quirk is not modelled; no claim input contains a newline).
-/

/-- A parsed JSON value; numbers are exact rationals. -/
inductive Json where
  | null : Json
  | bool (b : Bool) : Json
  | num (q : ℚ) : Json
  | str (s : String) : Json
  | arr (xs : List Json) : Json
  | obj (kvs : List (String × Json)) : Json

namespace Json

/-- The key/value pairs of an object, `[]` for any other value. -/
def fields : Json → List (String × Json)
  | .obj kvs => kvs
  | _ => []

end Json

/-! ## Python dict operations (insertion-order preserving), as used by
`post_process_schema` in `scripts/generate_schemas.py`. -/

/-- `d[k]` lookup returning the first binding (Python dicts have unique keys). -/
def dictGet : List (String × Json) → String → Option Json
  | [], _ => none
  | (k', v') :: rest, k => if k' = k then some v' else dictGet rest k

/-- `k in d`. -/
def dictContains (kvs : List (String × Json)) (k : String) : Bool :=
  (dictGet kvs k).isSome

/-- `d[k] = v`: update in place when the key is present (keeping its
position), append at the end otherwise — Python dict assignment. -/
def dictSet : List (String × Json) → String → Json → List (String × Json)
  | [], k, v => [(k, v)]
  | (k', v') :: rest, k, v =>
    if k' = k then (k, v) :: rest else (k', v') :: dictSet rest k v

/-- `d.pop(k, None)`: remove the binding for `k` (Python dicts have unique
keys, so removing every occurrence agrees with removing the one entry). -/
def dictPop (kvs : List (String × Json)) (k : String) : List (String × Json) :=
  kvs.filter (fun p => p.1 ≠ k)

/-! ## Character-list string helpers (substring test for
`"ResearchProduct" in schema.get("title", "")`, pattern checks). -/

/-- `n` is a prefix of `h` (boolean, structural). -/
def chPre : List Char → List Char → Bool
  | [], _ => true
  | _ :: _, [] => false
  | a :: as, b :: bs => a = b && chPre as bs

/-- `n` occurs as a contiguous substring of `h` — Python's `n in h`. -/
def chSub (n : List Char) : List Char → Bool
  | [] => n.isEmpty
  | b :: t => chPre n (b :: t) || chSub n t

/-- Python `needle in hay` on strings. -/
def strHasSub (needle hay : String) : Bool :=
  chSub needle.data hay.data

/-! ## Pydantic v2 lax-mode primitive checks. -/

/-- Digit-list to number, `none` on a non-digit. -/
def digitsVal (cs : List Char) : Option Nat :=
  cs.foldl
    (fun acc c =>
      match acc with
      | none => none
      | some n => if c.isDigit then some (n * 10 + (c.toNat - 48)) else none)
    (some 0)

/-- Parse a plain decimal string (optional sign, digits, optional fractional
part) as an exact rational — the lax `str → float` coercion performed by
pydantic-core for the string forms relevant here. -/
def parseDecimal (s : String) : Option ℚ := do
  let cs := s.data
  let (neg, cs) :=
    match cs with
    | '-' :: r => (true, r)
    | '+' :: r => (false, r)
    | _ => (false, cs)
  let intPart := cs.takeWhile Char.isDigit
  let rest := cs.dropWhile Char.isDigit
  match rest with
  | [] =>
    if intPart.isEmpty then none
    else do
      let n ← digitsVal intPart
      let mag : ℚ := mkRat (n : Int) 1
      pure (if neg then -mag else mag)
  | '.' :: frac =>
    if frac.all Char.isDigit && !(intPart.isEmpty && frac.isEmpty) then do
      let ip ← digitsVal intPart
      let fp ← digitsVal frac
      let den := 10 ^ frac.length
      let mag : ℚ := mkRat ((ip * den + fp : Nat) : Int) den
      pure (if neg then -mag else mag)
    else none
  | _ => none

/-- Lax coercion to `float`: numbers, booleans, and numeric strings. -/
def floatLax : Json → Option ℚ
  | .num q => some q
  | .bool b => some (if b then 1 else 0)
  | .str s => parseDecimal s
  | _ => none

/-- Parse an optionally-signed integer string. -/
def parseIntStr (s : String) : Option Int :=
  match s.data with
  | '-' :: r => if r.isEmpty then none else (digitsVal r).map (fun n => -(n : Int))
  | '+' :: r => if r.isEmpty then none else (digitsVal r).map (fun n => (n : Int))
  | cs => if cs.isEmpty then none else (digitsVal cs).map (fun n => (n : Int))

/-- Lax coercion to `int`: integral numbers, booleans, integer strings. -/
def intLax : Json → Option Int
  | .num q => if q.den = 1 then some q.num else none
  | .bool b => some (if b then 1 else 0)
  | .str s => parseIntStr s
  | _ => none

/-- A `str` field: lax mode still only accepts strings. -/
def chkStr : Json → Bool
  | .str _ => true
  | _ => false

/-- A `bool` field in lax mode: booleans, 0/1 numbers, and the usual
truthy/falsy strings recognised by pydantic-core. -/
def chkBool : Json → Bool
  | .bool _ => true
  | .num q => q = 0 || q = 1
  | .str s =>
    ["true", "false", "1", "0", "yes", "no", "on", "off", "t", "f", "y", "n"].contains
      s.toLower
  | _ => false

/-- `Literal["lit"]`: the exact string. -/
def chkLit (lit : String) : Json → Bool
  | .str s => s = lit
  | _ => false

/-- `Literal[l1, l2, ...]`: membership in the closed string set. -/
def chkLitIn (lits : List String) : Json → Bool
  | .str s => lits.contains s
  | _ => false

/-- `HttpUrl`: an http(s) URL string (scheme plus nonempty remainder). -/
def chkHttpUrl : Json → Bool
  | .str s =>
    (chPre "http://".data s.data && decide (7 < s.data.length)) ||
      (chPre "https://".data s.data && decide (8 < s.data.length))
  | _ => false

/-- An unconstrained `float` field. -/
def chkFloat (v : Json) : Bool := (floatLax v).isSome

/-- A `float` field with `ge=lo`. -/
def chkFloatGe (lo : ℚ) (v : Json) : Bool :=
  match floatLax v with
  | some q => decide (lo ≤ q)
  | none => false

/-- A `float` field with `gt=lo`. -/
def chkFloatGt (lo : ℚ) (v : Json) : Bool :=
  match floatLax v with
  | some q => decide (lo < q)
  | none => false

/-- A `float` field with `ge=lo, le=hi` (both bounds inclusive). -/
def chkFloatGeLe (lo hi : ℚ) (v : Json) : Bool :=
  match floatLax v with
  | some q => decide (lo ≤ q) && decide (q ≤ hi)
  | none => false

/-- An unconstrained `int` field. -/
def chkInt (v : Json) : Bool := (intLax v).isSome

/-- An `int` field with `ge=lo`. -/
def chkIntGe (lo : Int) (v : Json) : Bool :=
  match intLax v with
  | some n => decide (lo ≤ n)
  | none => false

/-- `Dict[str, Any]`: any JSON object. -/
def chkDictAny : Json → Bool
  | .obj _ => true
  | _ => false

/-- `Dict[str, T]`: an object whose values all satisfy the element check. -/
def chkDictOf (chk : Json → Bool) : Json → Bool
  | .obj kvs => kvs.all (fun p => chk p.2)
  | _ => false

/-- `List[T]`. -/
def chkList (chk : Json → Bool) : Json → Bool
  | .arr xs => xs.all chk
  | _ => false

/-- `List[T]` with `min_length=n`. -/
def chkListMin (n : Nat) (chk : Json → Bool) : Json → Bool
  | .arr xs => decide (n ≤ xs.length) && xs.all chk
  | _ => false

/-- `List[T]` with `min_length=lo, max_length=hi`. -/
def chkListMinMax (lo hi : Nat) (chk : Json → Bool) : Json → Bool
  | .arr xs => decide (lo ≤ xs.length) && decide (xs.length ≤ hi) && xs.all chk
  | _ => false

/-- `Optional[T]` (i.e. `Union[T, None]`): `null` or a valid `T`. -/
def chkOpt (chk : Json → Bool) (v : Json) : Bool :=
  match v with
  | .null => true
  | _ => chk v

/-- `Union[A, B]`: some member validates (pass/fail view of smart union). -/
def chkUnion2 (c1 c2 : Json → Bool) (v : Json) : Bool := c1 v || c2 v

/-! ## Field extraction under `populate_by_name=True`:
the wire alias is looked up first, then the Python field name. -/

/-- Look up an aliased field: alias first, then field name. -/
def getA (kvs : List (String × Json)) (al nm : String) : Option Json :=
  match dictGet kvs al with
  | some v => some v
  | none => dictGet kvs nm

/-- Required field without alias. -/
def reqF (kvs : List (String × Json)) (k : String) (chk : Json → Bool) : Bool :=
  match dictGet kvs k with
  | some v => chk v
  | none => false

/-- Required field with wire alias. -/
def reqA (kvs : List (String × Json)) (al nm : String) (chk : Json → Bool) : Bool :=
  match getA kvs al nm with
  | some v => chk v
  | none => false

/-- Field with a default, no alias: absent is fine, present must validate. -/
def optF (kvs : List (String × Json)) (k : String) (chk : Json → Bool) : Bool :=
  match dictGet kvs k with
  | some v => chk v
  | none => true

/-- Field with a default and a wire alias. -/
def optA (kvs : List (String × Json)) (al nm : String) (chk : Json → Bool) : Bool :=
  match getA kvs al nm with
  | some v => chk v
  | none => true

/-! ## Validators for `src/rap_spec/models/common.py` -/

namespace common

/-- Validator for class `Unit` in `src/rap_spec/models/common.py`. -/
def Unit.validate : Json → Bool
  | .obj kvs =>
    optA kvs "@type" "type_" (chkLit "Unit") &&
    reqF kvs "symbol" chkStr &&
    optF kvs "label" (chkOpt chkStr) &&
    optF kvs "uri" (chkOpt chkHttpUrl)
  | _ => false

/-- Validator for class `QuantityValue` in `common.py`. -/
def QuantityValue.validate : Json → Bool
  | .obj kvs =>
    optA kvs "@type" "type_" (chkLit "QuantityValue") &&
    reqF kvs "value" (chkFloatGe 0) &&
    reqF kvs "unit" chkStr
  | _ => false

/-- Validator for class `SoftwareApplication` in `common.py`. -/
def SoftwareApplication.validate : Json → Bool
  | .obj kvs =>
    optA kvs "@type" "type_" (chkLit "SoftwareApplication") &&
    reqF kvs "name" chkStr &&
    optF kvs "version" (chkOpt chkStr) &&
    optF kvs "url" (chkOpt chkHttpUrl)
  | _ => false

/-- Validator for class `ProcessingStep` in `common.py`. -/
def ProcessingStep.validate : Json → Bool
  | .obj kvs =>
    optA kvs "@type" "type_" (chkLit "ProcessingStep") &&
    reqA kvs "stepOrder" "step_order" (chkIntGe 1) &&
    reqF kvs "name" chkStr &&
    optA kvs "softwareAgent" "software_agent" (chkOpt SoftwareApplication.validate) &&
    optF kvs "parameters" (chkOpt chkDictAny)
  | _ => false

/-- Validator for class `ProcessingProvenance` in `common.py`. -/
def ProcessingProvenance.validate : Json → Bool
  | .obj kvs =>
    optA kvs "@type" "type_" (chkLit "ProcessingProvenance") &&
    reqA kvs "wasDerivedFrom" "was_derived_from" chkDictAny &&
    reqA kvs "processingSteps" "processing_steps" (chkList ProcessingStep.validate)
  | _ => false

/-- Validator for class `ComputeEnvironment` in `common.py`. -/
def ComputeEnvironment.validate : Json → Bool
  | .obj kvs =>
    optA kvs "@type" "type_" (chkLit "ComputeEnvironment") &&
    optA kvs "containerImage" "container_image" (chkOpt chkDictAny)
  | _ => false

/-- Validator for class `CreativeWork` in `common.py`. -/
def CreativeWork.validate : Json → Bool
  | .obj kvs =>
    optA kvs "@type" "type_" (chkLit "CreativeWork") &&
    reqA kvs "@id" "id_" chkHttpUrl &&
    optF kvs "name" (chkOpt chkStr)
  | _ => false

/-- Validator for class `DataDownload` in `common.py`. -/
def DataDownload.validate : Json → Bool
  | .obj kvs =>
    optA kvs "@type" "type_" (chkLit "DataDownload") &&
    reqA kvs "contentUrl" "content_url" chkHttpUrl &&
    optA kvs "encodingFormat" "encoding_format" (chkOpt chkStr) &&
    optA kvs "contentSize" "content_size" (chkOpt chkStr)
  | _ => false

/-- Validator for class `PropertyValue` in `common.py`. -/
def PropertyValue.validate : Json → Bool
  | .obj kvs =>
    optA kvs "@type" "type_" (chkLit "PropertyValue") &&
    reqA kvs "propertyID" "property_id" chkStr &&
    reqF kvs "value" chkStr
  | _ => false

/-- Validator for class `ScholarlyArticle` in `common.py`. -/
def ScholarlyArticle.validate : Json → Bool
  | .obj kvs =>
    optA kvs "@type" "type_" (chkLit "ScholarlyArticle") &&
    optF kvs "identifier" (chkOpt chkDictAny) &&
    optF kvs "name" (chkOpt chkStr)
  | _ => false

end common

/-! ## Validators for `src/rap_spec/data_types/vector_data.py` -/

namespace vector_data

/-- Validator for class `Statistics` in `src/rap_spec/data_types/vector_data.py`. -/
def Statistics.validate : Json → Bool
  | .obj kvs =>
    optF kvs "mean" (chkOpt chkFloat) &&
    optF kvs "median" (chkOpt chkFloat) &&
    optF kvs "std" (chkOpt chkFloat) &&
    optF kvs "min" (chkOpt chkFloat) &&
    optF kvs "max" (chkOpt chkFloat) &&
    optF kvs "count" (chkOpt chkInt)
  | _ => false

/-- Validator for class `VectorData` in `vector_data.py`: `values` is a
required `List[float]` with `min_length=1`. -/
def VectorData.validate : Json → Bool
  | .obj kvs =>
    optA kvs "@type" "type_" (chkLit "VectorData") &&
    reqF kvs "values" (chkListMin 1 chkFloat) &&
    reqF kvs "unit" (chkUnion2 common.Unit.validate chkHttpUrl) &&
    optF kvs "length" (chkOpt (chkIntGe 1)) &&
    optF kvs "labels" (chkOpt (chkList chkStr)) &&
    optF kvs "statistics" (chkOpt Statistics.validate) &&
    optF kvs "metadata" (chkOpt chkDictAny)
  | _ => false

end vector_data

/-! ## Validators for `src/rap_spec/measurements/timeseries.py` -/

namespace timeseries

/-- Validator for class `TimeDimension` in `src/rap_spec/measurements/timeseries.py`. -/
def TimeDimension.validate : Json → Bool
  | .obj kvs =>
    reqF kvs "length" (chkIntGe 1) &&
    optF kvs "start" (chkOpt chkFloat) &&
    optF kvs "end" (chkOpt chkFloat)
  | _ => false

/-- Validator for class `Dimensions` in `timeseries.py`. -/
def Dimensions.validate : Json → Bool
  | .obj kvs => optF kvs "time" (chkOpt TimeDimension.validate)
  | _ => false

/-- Validator for class `SamplingRate` in `timeseries.py`. -/
def SamplingRate.validate : Json → Bool
  | .obj kvs =>
    reqF kvs "value" (chkFloatGt 0) &&
    reqF kvs "unit" common.Unit.validate
  | _ => false

/-- Validator for class `Duration` in `timeseries.py`. -/
def Duration.validate : Json → Bool
  | .obj kvs =>
    reqF kvs "value" (chkFloatGe 0) &&
    reqF kvs "unit" common.Unit.validate
  | _ => false

/-- Validator for class `Channels` in `timeseries.py`. -/
def Channels.validate : Json → Bool
  | .obj kvs =>
    reqF kvs "count" (chkIntGe 1) &&
    optA kvs "type" "type_" (chkOpt chkStr) &&
    optF kvs "labels" (chkOpt (chkList chkStr))
  | _ => false

/-- Validator for class `TimeseriesMeasurement` in `timeseries.py`.
Inherits the `BaseMeasurement` fields (`src/rap_spec/measurements/base.py`):
`type_`, `session`, `unit`, `quantity_kind`; `measurement_type` is narrowed
to the literal "timeseries" (with that default) and `specific_measure`
remains a required string. -/
def TimeseriesMeasurement.validate : Json → Bool
  | .obj kvs =>
    optA kvs "@type" "type_" (chkLit "Measurement") &&
    optA kvs "measurementType" "measurement_type" (chkLit "timeseries") &&
    reqA kvs "specificMeasure" "specific_measure" chkStr &&
    optF kvs "session" (chkOpt chkStr) &&
    optF kvs "unit" (chkOpt (chkUnion2 common.Unit.validate chkHttpUrl)) &&
    optA kvs "quantityKind" "quantity_kind" (chkOpt chkHttpUrl) &&
    optF kvs "dimensions" (chkOpt Dimensions.validate) &&
    optA kvs "samplingRate" "sampling_rate" (chkOpt SamplingRate.validate) &&
    optF kvs "duration" (chkOpt Duration.validate) &&
    optF kvs "channels" (chkOpt Channels.validate)
  | _ => false

end timeseries

/-! ## Validators for `src/rap_spec/measurements/relaxometry_mri.py` -/

namespace relaxometry_mri

/-- Validator for class `SpatialResolution` in
`src/rap_spec/measurements/relaxometry_mri.py`. -/
def SpatialResolution.validate : Json → Bool
  | .obj kvs =>
    reqF kvs "value" (chkFloatGe 0) &&
    reqF kvs "unit" common.Unit.validate
  | _ => false

/-- Validator for class `FieldStrength` in `relaxometry_mri.py`. -/
def FieldStrength.validate : Json → Bool
  | .obj kvs =>
    reqF kvs "value" (chkFloatGe 0) &&
    reqF kvs "unit" common.Unit.validate
  | _ => false

/-- Validator for class `AcquisitionParameters` in `relaxometry_mri.py`:
`flip_angle` (alias `flipAngle`) carries `ge=0, le=180`. -/
def AcquisitionParameters.validate : Json → Bool
  | .obj kvs =>
    optA kvs "fieldStrength" "field_strength" (chkOpt FieldStrength.validate) &&
    optF kvs "scanner" (chkOpt chkStr) &&
    optF kvs "sequence" (chkOpt chkStr) &&
    optF kvs "TR" (chkOpt (chkFloatGe 0)) &&
    optF kvs "TE" (chkOpt (chkUnion2 chkFloat (chkList chkFloat))) &&
    optF kvs "TI" (chkOpt (chkUnion2 chkFloat (chkList chkFloat))) &&
    optA kvs "flipAngle" "flip_angle" (chkOpt (chkFloatGeLe 0 180))
  | _ => false

/-- Validator for class `RelaxometryMRIMeasurement` in `relaxometry_mri.py`.
Inherits the `BaseMeasurement` fields; `measurement_type` is narrowed to the
literal "relaxometry_mri" (with that default). -/
def RelaxometryMRIMeasurement.validate : Json → Bool
  | .obj kvs =>
    optA kvs "@type" "type_" (chkLit "Measurement") &&
    optA kvs "measurementType" "measurement_type" (chkLit "relaxometry_mri") &&
    reqA kvs "specificMeasure" "specific_measure" chkStr &&
    optF kvs "session" (chkOpt chkStr) &&
    optF kvs "unit" (chkOpt (chkUnion2 common.Unit.validate chkHttpUrl)) &&
    optA kvs "quantityKind" "quantity_kind" (chkOpt chkHttpUrl) &&
    optA kvs "anatomicalRegion" "anatomical_region" (chkOpt chkStr) &&
    optA kvs "regionType" "region_type"
      (chkOpt (chkLitIn ["tissue_class", "anatomical_roi", "functional_roi", "voxel_wise"])) &&
    optA kvs "vectorLength" "vector_length" (chkOpt (chkIntGe 1)) &&
    optA kvs "spatialResolution" "spatial_resolution" (chkOpt SpatialResolution.validate) &&
    optA kvs "coordinateSystem" "coordinate_system" (chkOpt chkStr) &&
    optA kvs "acquisitionParameters" "acquisition_parameters"
      (chkOpt AcquisitionParameters.validate)
  | _ => false

end relaxometry_mri

/-! ## Validators for `src/rap_spec/models/research_product.py` -/

namespace research_product

/-- Validator for class `DemographicData` in
`src/rap_spec/models/research_product.py` (the embedded-reference variant). -/
def DemographicData.validate : Json → Bool
  | .obj kvs =>
    optF kvs "age" (chkOpt chkDictAny) &&
    optF kvs "sex" (chkOpt (chkLitIn ["M", "F", "other", "unknown"])) &&
    optF kvs "group" (chkOpt chkStr)
  | _ => false

/-- Validator for class `ParticipantReference` in `research_product.py`:
`identifier` is a plain required `str` — no pattern constraint. -/
def ParticipantReference.validate : Json → Bool
  | .obj kvs =>
    optA kvs "@type" "type_" (chkLit "Participant") &&
    reqA kvs "@id" "id_" chkHttpUrl &&
    reqF kvs "identifier" chkStr &&
    optA kvs "demographicData" "demographic_data" (chkOpt DemographicData.validate)
  | _ => false

/-- Validator for class `ResearchProduct` in `research_product.py`.
`measurement` is the untagged union
`Union[RelaxometryMRIMeasurement, TimeseriesMeasurement]`; the model
config sets `populate_by_name=True` and leaves `extra` at Pydantic's
default `"ignore"`, so unknown top-level keys are skipped. -/
def ResearchProduct.validate : Json → Bool
  | .obj kvs =>
    reqA kvs "@context" "context"
      (chkUnion2 (chkLit "https://rap-spec.evidencepub.io/v1/context") chkDictAny) &&
    optA kvs "@type" "type_" (chkLit "ResearchProduct") &&
    reqA kvs "@id" "id_" chkHttpUrl &&
    optF kvs "identifier" (chkOpt common.PropertyValue.validate) &&
    reqA kvs "productType" "product_type"
      (chkLitIn ["processed_timeseries", "processed_scalar", "processed_image",
        "processed_spatial", "processed_categorical", "processed_vector"]) &&
    reqA kvs "processingLevel" "processing_level"
      (chkLitIn ["raw", "preprocessed", "analysis_ready", "aggregated"]) &&
    optF kvs "data" (chkOpt vector_data.VectorData.validate) &&
    reqF kvs "participant" ParticipantReference.validate &&
    reqF kvs "measurement"
      (chkUnion2 relaxometry_mri.RelaxometryMRIMeasurement.validate
        timeseries.TimeseriesMeasurement.validate) &&
    optF kvs "provenance" (chkOpt common.ProcessingProvenance.validate) &&
    optA kvs "computeEnvironment" "compute_environment"
      (chkOpt common.ComputeEnvironment.validate) &&
    optF kvs "license" (chkOpt common.CreativeWork.validate) &&
    optF kvs "distribution" (chkOpt common.DataDownload.validate) &&
    optF kvs "citation" (chkOpt common.ScholarlyArticle.validate) &&
    optA kvs "qualityMetrics" "quality_metrics" (chkOpt chkDictAny)
  | _ => false

end research_product

/-- The instance-validation entry point of `scripts/validate_examples.py`:
`validate_research_product` parses a file and runs
`ResearchProduct.model_validate(data)`, mapping success to `True` and any
validation error to `False` (file I/O elided, the parsed document is the
argument). -/
def validate_research_product (doc : Json) : Bool :=
  research_product.ResearchProduct.validate doc

/-! ## Validators for `src/rap_spec/models/participant.py` -/

namespace participant

/-- Validator for class `Age` in `src/rap_spec/models/participant.py`. -/
def Age.validate : Json → Bool
  | .obj kvs =>
    optA kvs "@type" "type_" (chkLit "QuantityValue") &&
    reqF kvs "value" (chkFloatGe 0) &&
    optF kvs "unit" chkStr
  | _ => false

/-- Validator for class `DemographicData` in `participant.py` (the
full-entity variant). -/
def DemographicData.validate : Json → Bool
  | .obj kvs =>
    optF kvs "age" (chkOpt Age.validate) &&
    optF kvs "sex" (chkOpt (chkLitIn ["M", "F", "other", "unknown"])) &&
    optF kvs "gender" (chkOpt chkStr) &&
    optF kvs "group" (chkOpt chkStr) &&
    optF kvs "ethnicity" (chkOpt chkStr) &&
    optF kvs "handedness" (chkOpt (chkLitIn ["left", "right", "ambidextrous", "unknown"])) &&
    optF kvs "species" (chkOpt chkStr) &&
    optF kvs "strain" (chkOpt chkStr) &&
    optA kvs "geneticModification" "genetic_modification" (chkOpt chkStr)
  | _ => false

/-- Validator for class `Medication` in `participant.py`. -/
def Medication.validate : Json → Bool
  | .obj kvs =>
    optF kvs "name" (chkOpt chkStr) &&
    optF kvs "dosage" (chkOpt chkStr) &&
    optF kvs "duration" (chkOpt chkStr)
  | _ => false

/-- Validator for class `Assessment` in `participant.py`. -/
def Assessment.validate : Json → Bool
  | .obj kvs =>
    optF kvs "name" (chkOpt chkStr) &&
    optF kvs "score" (chkOpt chkFloat) &&
    optF kvs "date" (chkOpt chkStr)
  | _ => false

/-- Validator for class `ClinicalData` in `participant.py`. -/
def ClinicalData.validate : Json → Bool
  | .obj kvs =>
    optF kvs "diagnosis" (chkOpt (chkList chkStr)) &&
    optA kvs "medicationHistory" "medication_history" (chkOpt (chkList Medication.validate)) &&
    optF kvs "assessments" (chkOpt (chkList Assessment.validate))
  | _ => false

/-- Validator for class `ProductsAvailable` in `participant.py`. -/
def ProductsAvailable.validate : Json → Bool
  | .obj kvs =>
    optF kvs "count" (chkOpt (chkIntGe 0)) &&
    optF kvs "measures" (chkOpt (chkList chkStr)) &&
    optF kvs "sessions" (chkOpt (chkList chkStr)) &&
    optA kvs "byMeasure" "by_measure" (chkOpt (chkDictOf chkInt)) &&
    optA kvs "bySession" "by_session" (chkOpt (chkDictOf chkInt))
  | _ => false

/-- Validator for class `SessionDuration` in `participant.py`. -/
def SessionDuration.validate : Json → Bool
  | .obj kvs =>
    optF kvs "value" (chkOpt chkFloat) &&
    optF kvs "unit" chkStr
  | _ => false

/-- Validator for class `Environment` in `participant.py`. -/
def Environment.validate : Json → Bool
  | .obj kvs =>
    optF kvs "temperature" (chkOpt chkFloat) &&
    optF kvs "lighting" (chkOpt chkStr) &&
    optA kvs "noiseLevel" "noise_level" (chkOpt chkStr)
  | _ => false

/-- Validator for class `SessionMetadata` in `participant.py`. -/
def SessionMetadata.validate : Json → Bool
  | .obj kvs =>
    optF kvs "session" (chkOpt chkStr) &&
    optF kvs "date" (chkOpt chkStr) &&
    optF kvs "duration" (chkOpt SessionDuration.validate) &&
    optF kvs "notes" (chkOpt chkStr) &&
    optF kvs "experimenter" (chkOpt chkStr) &&
    optF kvs "environment" (chkOpt Environment.validate)
  | _ => false

/-- Validator for class `Links` in `participant.py`. -/
def Links.validate : Json → Bool
  | .obj kvs =>
    optF kvs "products" (chkOpt chkHttpUrl) &&
    optF kvs "measures" (chkOpt chkHttpUrl) &&
    optF kvs "sessions" (chkOpt chkHttpUrl)
  | _ => false

/-- Validator for class `Consent` in `participant.py`. -/
def Consent.validate : Json → Bool
  | .obj kvs =>
    optA kvs "consentDate" "consent_date" (chkOpt chkStr) &&
    optA kvs "consentVersion" "consent_version" (chkOpt chkStr) &&
    optA kvs "dataSharing" "data_sharing"
      (chkOpt (chkLitIn ["public", "restricted", "private"])) &&
    optF kvs "restrictions" (chkOpt (chkList chkStr))
  | _ => false

/-- The `identifier` pattern of class `Participant`:
`^[A-Za-z0-9_-]+$` as a whole-string match. -/
def identOk (s : String) : Bool :=
  !s.data.isEmpty &&
    s.data.all (fun c =>
      (('A' ≤ c && c ≤ 'Z') || ('a' ≤ c && c ≤ 'z') ||
        ('0' ≤ c && c ≤ '9') || c = '_' || c = '-'))

/-- The `identifier` field check of `Participant`: a string matching the
pattern. -/
def chkIdent : Json → Bool
  | .str s => identOk s
  | _ => false

/-- Validator for class `Participant` in `participant.py`: `identifier`
carries `pattern=r"^[A-Za-z0-9_-]+$"`. -/
def Participant.validate : Json → Bool
  | .obj kvs =>
    reqA kvs "@context" "context"
      (chkUnion2 (chkLit "https://rap-spec.evidencepub.io/v1/context") chkDictAny) &&
    optA kvs "@type" "type_" (chkLit "Participant") &&
    reqA kvs "@id" "id_" chkHttpUrl &&
    reqF kvs "identifier" chkIdent &&
    optA kvs "demographicData" "demographic_data" (chkOpt DemographicData.validate) &&
    optA kvs "enrollmentDate" "enrollment_date" (chkOpt chkStr) &&
    optF kvs "status" (chkOpt (chkLitIn ["active", "completed", "withdrawn", "excluded"])) &&
    optA kvs "exclusionReason" "exclusion_reason" (chkOpt chkStr) &&
    optA kvs "clinicalData" "clinical_data" (chkOpt ClinicalData.validate) &&
    optA kvs "productsAvailable" "products_available" (chkOpt ProductsAvailable.validate) &&
    optA kvs "sessionMetadata" "session_metadata" (chkOpt (chkList SessionMetadata.validate)) &&
    optF kvs "links" (chkOpt Links.validate) &&
    optF kvs "consent" (chkOpt Consent.validate) &&
    optA kvs "privacyLevel" "privacy_level"
      (chkOpt (chkLitIn ["anonymous", "pseudonymous", "identifiable"]))
  | _ => false

end participant

/-! ## Validators for `src/rap_spec/models/aggregate.py` -/

namespace aggregate

/-- Validator for class `AggregateFilters` in `src/rap_spec/models/aggregate.py`. -/
def AggregateFilters.validate : Json → Bool
  | .obj kvs =>
    optF kvs "participant" (chkOpt (chkUnion2 chkStr (chkList chkStr))) &&
    optF kvs "session" (chkOpt (chkUnion2 chkStr (chkList chkStr))) &&
    optF kvs "group" (chkOpt chkStr) &&
    optA kvs "ageRange" "age_range" (chkOpt (chkDictOf chkFloat))
  | _ => false

/-- Validator for class `MeanValue` in `aggregate.py`. -/
def MeanValue.validate : Json → Bool
  | .obj kvs =>
    reqF kvs "value" chkFloat &&
    optF kvs "units" (chkOpt chkStr)
  | _ => false

/-- Validator for class `QuantileValues` in `aggregate.py`. -/
def QuantileValues.validate : Json → Bool
  | .obj kvs =>
    optF kvs "q25" (chkOpt chkFloat) &&
    optF kvs "q50" (chkOpt chkFloat) &&
    optF kvs "q75" (chkOpt chkFloat)
  | _ => false

/-- Validator for class `ConfidenceInterval` in `aggregate.py`: `level`
carries `ge=0, le=1`. -/
def ConfidenceInterval.validate : Json → Bool
  | .obj kvs =>
    reqF kvs "level" (chkFloatGeLe 0 1) &&
    reqF kvs "lower" chkFloat &&
    reqF kvs "upper" chkFloat
  | _ => false

/-- Validator for class `Statistics` in `aggregate.py` (the richer variant). -/
def Statistics.validate : Json → Bool
  | .obj kvs =>
    optF kvs "mean" (chkOpt (chkUnion2 chkFloat MeanValue.validate)) &&
    optF kvs "median" (chkOpt chkFloat) &&
    optF kvs "std" (chkOpt chkFloat) &&
    optF kvs "sem" (chkOpt chkFloat) &&
    optF kvs "variance" (chkOpt chkFloat) &&
    optF kvs "min" (chkOpt chkFloat) &&
    optF kvs "max" (chkOpt chkFloat) &&
    optF kvs "range" (chkOpt (chkListMinMax 2 2 chkFloat)) &&
    optF kvs "quantiles" (chkOpt QuantileValues.validate) &&
    optA kvs "confidenceInterval" "confidence_interval" (chkOpt ConfidenceInterval.validate)
  | _ => false

/-- Validator for class `Histogram` in `aggregate.py`. -/
def Histogram.validate : Json → Bool
  | .obj kvs =>
    optF kvs "bins" (chkOpt (chkList chkFloat)) &&
    optF kvs "counts" (chkOpt (chkList chkInt))
  | _ => false

/-- Validator for class `KDE` in `aggregate.py`. -/
def KDE.validate : Json → Bool
  | .obj kvs =>
    optF kvs "x" (chkOpt (chkList chkFloat)) &&
    optF kvs "y" (chkOpt (chkList chkFloat))
  | _ => false

/-- Validator for class `Distribution` in `aggregate.py`. -/
def Distribution.validate : Json → Bool
  | .obj kvs =>
    optF kvs "histogram" (chkOpt Histogram.validate) &&
    optF kvs "kde" (chkOpt KDE.validate)
  | _ => false

/-- Validator for class `AggregateLinks` in `aggregate.py`. -/
def AggregateLinks.validate : Json → Bool
  | .obj kvs =>
    optF kvs "products" (chkOpt chkHttpUrl) &&
    optA kvs "rawData" "raw_data" (chkOpt chkHttpUrl)
  | _ => false

/-- Validator for class `AggregateGroup` in `aggregate.py`. -/
def AggregateGroup.validate : Json → Bool
  | .obj kvs =>
    optF kvs "participant" (chkOpt chkStr) &&
    optF kvs "session" (chkOpt chkStr) &&
    optF kvs "group" (chkOpt chkStr) &&
    optA kvs "participantCount" "participant_count" (chkOpt (chkIntGe 0)) &&
    optA kvs "productCount" "product_count" (chkOpt (chkIntGe 0)) &&
    reqF kvs "statistics" Statistics.validate &&
    optF kvs "distribution" (chkOpt Distribution.validate) &&
    optF kvs "links" (chkOpt AggregateLinks.validate)
  | _ => false

/-- Validator for class `ComparisonGroup` in `aggregate.py`. -/
def ComparisonGroup.validate : Json → Bool
  | .obj kvs =>
    optF kvs "name" (chkOpt chkStr) &&
    optA kvs "participantCount" "participant_count" (chkOpt chkInt) &&
    optF kvs "statistics" (chkOpt (chkDictOf chkFloat))
  | _ => false

/-- Validator for class `EffectSize` in `aggregate.py`. -/
def EffectSize.validate : Json → Bool
  | .obj kvs =>
    reqF kvs "measure"
      (chkLitIn ["cohensD", "hedgesG", "glassD", "eta-squared", "omega-squared"]) &&
    reqF kvs "value" chkFloat
  | _ => false

/-- Validator for class `StatisticalTest` in `aggregate.py`: `p_value`
(alias `pValue`) is required with `ge=0, le=1`. -/
def StatisticalTest.validate : Json → Bool
  | .obj kvs =>
    reqF kvs "method"
      (chkLitIn ["t-test", "anova", "mann-whitney", "kruskal-wallis", "chi-square"]) &&
    reqF kvs "statistic" chkFloat &&
    reqA kvs "pValue" "p_value" (chkFloatGeLe 0 1) &&
    optF kvs "significant" (chkOpt chkBool) &&
    optF kvs "alpha" (chkOpt chkFloat) &&
    optA kvs "effectSize" "effect_size" (chkOpt EffectSize.validate) &&
    optA kvs "degreesOfFreedom" "degrees_of_freedom"
      (chkOpt (chkUnion2 chkFloat (chkList chkFloat)))
  | _ => false

/-- Validator for class `PostHocComparison` in `aggregate.py`: its
`p_value` (alias `pValue`) is an `Optional[float]` with no declared bounds. -/
def PostHocComparison.validate : Json → Bool
  | .obj kvs =>
    optF kvs "group1" (chkOpt chkStr) &&
    optF kvs "group2" (chkOpt chkStr) &&
    optA kvs "pValue" "p_value" (chkOpt chkFloat) &&
    optF kvs "adjusted" (chkOpt chkBool) &&
    optA kvs "adjustmentMethod" "adjustment_method"
      (chkOpt (chkLitIn ["bonferroni", "holm", "fdr_bh", "fdr_by"]))
  | _ => false

/-- Validator for class `Comparison` in `aggregate.py`. -/
def Comparison.validate : Json → Bool
  | .obj kvs =>
    optF kvs "groups" (chkOpt (chkList ComparisonGroup.validate)) &&
    reqF kvs "test" StatisticalTest.validate &&
    optA kvs "postHoc" "post_hoc" (chkOpt (chkList PostHocComparison.validate))
  | _ => false

/-- Validator for class `AggregateMetadata` in `aggregate.py`. -/
def AggregateMetadata.validate : Json → Bool
  | .obj kvs =>
    optA kvs "computedAt" "computed_at" (chkOpt chkStr) &&
    optA kvs "softwareUsed" "software_used" (chkOpt (chkDictOf chkStr)) &&
    optA kvs "excludedProducts" "excluded_products"
      (chkOpt (chkList (chkDictOf chkStr)))
  | _ => false

/-- Validator for class `AggregateStatistics` in `aggregate.py`:
`aggregates` is a required `List[AggregateGroup]` with no `min_length`
constraint. -/
def AggregateStatistics.validate : Json → Bool
  | .obj kvs =>
    reqA kvs "@context" "context"
      (chkUnion2 (chkLit "https://rap-spec.evidencepub.io/v1/context") chkDictAny) &&
    optA kvs "@type" "type_" (chkLit "AggregateStatistics") &&
    reqA kvs "@id" "id_" chkHttpUrl &&
    reqF kvs "measure" chkStr &&
    optF kvs "grouping" (chkOpt chkStr) &&
    optF kvs "filters" (chkOpt AggregateFilters.validate) &&
    reqF kvs "aggregates" (chkList AggregateGroup.validate) &&
    optF kvs "comparison" (chkOpt Comparison.validate) &&
    optF kvs "metadata" (chkOpt AggregateMetadata.validate)
  | _ => false

end aggregate

/-! ## The schema projector post-processing of `scripts/generate_schemas.py` -/

namespace generate_schemas

/-- `schema.get("title", "")`, as used by `post_process_schema`; every
generated schema's `title` is a string (Pydantic emits the class name), so
non-string values are mapped to the empty default. -/
def schemaTitle (kvs : List (String × Json)) : String :=
  match dictGet kvs "title" with
  | some (.str t) => t
  | _ => ""

/-- Embedding of `post_process_schema(schema, schema_id)` from
`scripts/generate_schemas.py`: force the top-level `$schema` and `$id`,
pop any top-level `additionalProperties`, then — when the schema has a
`properties` key and its title contains the substring "ResearchProduct" —
set `additionalProperties` to `false`. -/
def post_process_schema (schema : Json) (schema_id : String) : Json :=
  match schema with
  | .obj kvs0 =>
    let kvs1 := dictSet kvs0 "$schema" (.str "https://json-schema.org/draft/2020-12/schema")
    let kvs2 := dictSet kvs1 "$id" (.str schema_id)
    let kvs3 := dictPop kvs2 "additionalProperties"
    let kvs4 :=
      if dictContains kvs3 "properties" && strHasSub "ResearchProduct" (schemaTitle kvs3)
      then dictSet kvs3 "additionalProperties" (.bool false)
      else kvs3
    .obj kvs4
  | _ => schema

/-- The class names of the nine models passed to `generate_schema` in
`main()` of `scripts/generate_schemas.py`; Pydantic's `model_json_schema`
emits each class name as the schema's top-level `title`, alongside a
top-level `properties` key. -/
def entityTitles : List String :=
  ["BaseMeasurement", "RelaxometryMRIMeasurement", "TimeseriesMeasurement",
   "VectorData", "ResearchProduct", "Participant", "ResearchProductCollection",
   "AggregateStatistics", "ResearchAPIDescriptor"]

/-- A representative raw `model_json_schema` output for
`ResearchProductCollection` (title = class name, `properties` present,
`$schema`/`$id` injected by the model's `json_schema_extra`). -/
def collectionRawSchema : Json :=
  .obj
    [("$schema", .str "https://json-schema.org/draft/2020-12/schema"),
     ("$id", .str "https://rap-spec.evidencepub.io/v1/schemas/collection.json"),
     ("title", .str "ResearchProductCollection"),
     ("description", .str "A collection of research products with filtering capabilities."),
     ("type", .str "object"),
     ("properties", .obj []),
     ("required", .arr [.str "@context", .str "@id", .str "totalItems", .str "member"])]

end generate_schemas

/-! ## Dictionary lemmas for the post-processing proofs -/

theorem dictGet_set_same (kvs : List (String × Json)) (k : String) (v : Json) :
    dictGet (dictSet kvs k v) k = some v := by
  induction kvs with
  | nil => simp [dictSet, dictGet]
  | cons p rest ih =>
    obtain ⟨a, b⟩ := p
    by_cases h : a = k
    · simp [dictSet, h, dictGet]
    · simp [dictSet, h, dictGet, ih]

theorem dictGet_set_ne (kvs : List (String × Json)) (k k' : String) (v : Json)
    (h : k ≠ k') : dictGet (dictSet kvs k v) k' = dictGet kvs k' := by
  induction kvs with
  | nil => simp [dictSet, dictGet, h]
  | cons p rest ih =>
    obtain ⟨a, b⟩ := p
    by_cases ha : a = k
    · subst ha
      simp [dictSet, dictGet, h]
    · simp [dictSet, ha, dictGet, ih]

theorem dictSet_get_eq (kvs : List (String × Json)) (k : String) (v : Json)
    (h : dictGet kvs k = some v) : dictSet kvs k v = kvs := by
  induction kvs with
  | nil => simp [dictGet] at h
  | cons p rest ih =>
    obtain ⟨a, b⟩ := p
    by_cases ha : a = k
    · subst ha
      simp [dictGet] at h
      simp [dictSet, h]
    · simp [dictGet, ha] at h
      simp [dictSet, ha, ih h]

theorem dictGet_pop_ne (kvs : List (String × Json)) (k k' : String)
    (h : k ≠ k') : dictGet (dictPop kvs k) k' = dictGet kvs k' := by
  induction kvs with
  | nil => simp [dictPop, dictGet]
  | cons p rest ih =>
    obtain ⟨a, b⟩ := p
    by_cases ha : a = k
    · subst ha
      simp [dictPop, List.filter_cons, dictGet, h, Ne.symm h] at ih ⊢
      simpa [dictPop] using ih
    · by_cases ha' : a = k'
      · subst ha'
        simp [dictPop, List.filter_cons, ha, dictGet]
      · simp [dictPop, List.filter_cons, ha, dictGet, ha'] at ih ⊢
        simpa [dictPop] using ih

theorem dictGet_pop_same (kvs : List (String × Json)) (k : String) :
    dictGet (dictPop kvs k) k = none := by
  induction kvs with
  | nil => simp [dictPop, dictGet]
  | cons p rest ih =>
    obtain ⟨a, b⟩ := p
    by_cases ha : a = k
    · subst ha
      simpa [dictPop, List.filter_cons] using ih
    · simp [dictPop, List.filter_cons, ha, dictGet] at ih ⊢
      simpa [dictPop] using ih

theorem dictPop_absent (kvs : List (String × Json)) (k : String)
    (h : dictGet kvs k = none) : dictPop kvs k = kvs := by
  induction kvs with
  | nil => simp [dictPop]
  | cons p rest ih =>
    obtain ⟨a, b⟩ := p
    by_cases ha : a = k
    · subst ha
      simp [dictGet] at h
    · simp [dictGet, ha] at h
      simp [dictPop, List.filter_cons, ha] at ih ⊢
      simpa [dictPop] using ih h

theorem dictPop_set_absent (kvs : List (String × Json)) (k : String) (v : Json)
    (h : dictGet kvs k = none) : dictPop (dictSet kvs k v) k = kvs := by
  induction kvs with
  | nil => simp [dictSet, dictPop, List.filter_cons]
  | cons p rest ih =>
    obtain ⟨a, b⟩ := p
    by_cases ha : a = k
    · subst ha
      simp [dictGet] at h
    · simp [dictGet, ha] at h
      simp [dictSet, ha, dictPop, List.filter_cons] at ih ⊢
      simpa [dictPop] using ih h

theorem dictContains_set_same (kvs : List (String × Json)) (k : String) (v : Json) :
    dictContains (dictSet kvs k v) k = true := by
  simp [dictContains, dictGet_set_same]

/-! ## Behaviour of `post_process_schema` -/

/-- The post-processed schema has a top-level `additionalProperties` key
exactly when the raw schema has a `properties` key and its title contains
the substring "ResearchProduct". -/
theorem post_process_contains_aP (kvs : List (String × Json)) (i : String) :
    dictContains (generate_schemas.post_process_schema (.obj kvs) i).fields
        "additionalProperties" =
      (dictContains kvs "properties" &&
        strHasSub "ResearchProduct" (generate_schemas.schemaTitle kvs)) := by
  have hchain : ∀ k : String, k ≠ "$schema" → k ≠ "$id" → k ≠ "additionalProperties" →
      dictGet (dictPop (dictSet (dictSet kvs "$schema"
          (.str "https://json-schema.org/draft/2020-12/schema")) "$id" (.str i))
          "additionalProperties") k = dictGet kvs k := by
    intro k h1 h2 h3
    rw [dictGet_pop_ne _ _ _ (Ne.symm h3), dictGet_set_ne _ _ _ _ (Ne.symm h2),
      dictGet_set_ne _ _ _ _ (Ne.symm h1)]
  simp only [generate_schemas.post_process_schema]
  set kvs3 := dictPop (dictSet (dictSet kvs "$schema"
      (.str "https://json-schema.org/draft/2020-12/schema")) "$id" (.str i))
      "additionalProperties" with hk3
  have hprops : dictContains kvs3 "properties" = dictContains kvs "properties" := by
    unfold dictContains
    rw [hk3, hchain _ (by decide) (by decide) (by decide)]
  have htitle : generate_schemas.schemaTitle kvs3 = generate_schemas.schemaTitle kvs := by
    unfold generate_schemas.schemaTitle
    rw [hk3, hchain _ (by decide) (by decide) (by decide)]
  by_cases hc : (dictContains kvs3 "properties" &&
      strHasSub "ResearchProduct" (generate_schemas.schemaTitle kvs3)) = true
  · simp only [hc, if_true, Json.fields, dictContains_set_same]
    rw [← hprops, ← htitle]
    exact hc.symm
  · rw [Bool.not_eq_true] at hc
    simp only [hc, Bool.false_eq_true, if_false, Json.fields]
    rw [← hprops, ← htitle, hc]
    unfold dictContains
    rw [hk3, dictGet_pop_same]
    simp

/-- Post-processing an already post-processed schema with the same `$id`
changes nothing (key order included). -/
theorem post_process_idem (kvs : List (String × Json)) (i : String) :
    generate_schemas.post_process_schema
        (generate_schemas.post_process_schema (.obj kvs) i) i =
      generate_schemas.post_process_schema (.obj kvs) i := by
  conv_lhs => rw [generate_schemas.post_process_schema]
  set kvs3 := dictPop (dictSet (dictSet kvs "$schema"
      (.str "https://json-schema.org/draft/2020-12/schema")) "$id" (.str i))
      "additionalProperties" with hk3
  have hgS : dictGet kvs3 "$schema" =
      some (.str "https://json-schema.org/draft/2020-12/schema") := by
    rw [hk3, dictGet_pop_ne _ _ _ (by decide), dictGet_set_ne _ _ _ _ (by decide),
      dictGet_set_same]
  have hgI : dictGet kvs3 "$id" = some (.str i) := by
    rw [hk3, dictGet_pop_ne _ _ _ (by decide), dictGet_set_same]
  have hgA : dictGet kvs3 "additionalProperties" = none := by
    rw [hk3, dictGet_pop_same]
  by_cases hc : (dictContains kvs3 "properties" &&
      strHasSub "ResearchProduct" (generate_schemas.schemaTitle kvs3)) = true
  · simp only [hc, if_true]
    have h1 : dictGet (dictSet kvs3 "additionalProperties" (Json.bool false)) "$schema" =
        some (.str "https://json-schema.org/draft/2020-12/schema") := by
      rw [dictGet_set_ne _ _ _ _ (by decide), hgS]
    have h2 : dictGet (dictSet kvs3 "additionalProperties" (Json.bool false)) "$id" =
        some (.str i) := by
      rw [dictGet_set_ne _ _ _ _ (by decide), hgI]
    conv_lhs => rw [generate_schemas.post_process_schema]
    rw [dictSet_get_eq _ _ _ h1, dictSet_get_eq _ _ _ h2, dictPop_set_absent _ _ _ hgA]
    conv_rhs => rw [generate_schemas.post_process_schema]
  · rw [Bool.not_eq_true] at hc
    simp only [hc, Bool.false_eq_true, if_false]
    conv_lhs => rw [generate_schemas.post_process_schema]
    rw [dictSet_get_eq _ _ _ hgS, dictSet_get_eq _ _ _ hgI, dictPop_absent _ _ hgA]
    conv_rhs => rw [generate_schemas.post_process_schema]

/-- The emitted `$id` is exactly the caller-supplied URI. -/
theorem post_process_id_stable (kvs : List (String × Json)) (i : String) :
    dictGet (generate_schemas.post_process_schema (.obj kvs) i).fields "$id" =
      some (.str i) := by
  simp only [generate_schemas.post_process_schema]
  set kvs3 := dictPop (dictSet (dictSet kvs "$schema"
      (.str "https://json-schema.org/draft/2020-12/schema")) "$id" (.str i))
      "additionalProperties" with hk3
  have hgI : dictGet kvs3 "$id" = some (.str i) := by
    rw [hk3, dictGet_pop_ne _ _ _ (by decide), dictGet_set_same]
  by_cases hc : (dictContains kvs3 "properties" &&
      strHasSub "ResearchProduct" (generate_schemas.schemaTitle kvs3)) = true
  · simp only [hc, if_true, Json.fields]
    rw [dictGet_set_ne _ _ _ _ (by decide), hgI]
  · rw [Bool.not_eq_true] at hc
    simp only [hc, Bool.false_eq_true, if_false, Json.fields]
    exact hgI

/-- The emitted `$schema` is the fixed draft 2020-12 URI. -/
theorem post_process_schema_key_stable (kvs : List (String × Json)) (i : String) :
    dictGet (generate_schemas.post_process_schema (.obj kvs) i).fields "$schema" =
      some (.str "https://json-schema.org/draft/2020-12/schema") := by
  simp only [generate_schemas.post_process_schema]
  set kvs3 := dictPop (dictSet (dictSet kvs "$schema"
      (.str "https://json-schema.org/draft/2020-12/schema")) "$id" (.str i))
      "additionalProperties" with hk3
  have hgS : dictGet kvs3 "$schema" =
      some (.str "https://json-schema.org/draft/2020-12/schema") := by
    rw [hk3, dictGet_pop_ne _ _ _ (by decide), dictGet_set_ne _ _ _ _ (by decide),
      dictGet_set_same]
  by_cases hc : (dictContains kvs3 "properties" &&
      strHasSub "ResearchProduct" (generate_schemas.schemaTitle kvs3)) = true
  · simp only [hc, if_true, Json.fields]
    rw [dictGet_set_ne _ _ _ _ (by decide), hgS]
  · rw [Bool.not_eq_true] at hc
    simp only [hc, Bool.false_eq_true, if_false, Json.fields]
    exact hgS

/-! ## Rejection lemmas used by the claims -/

/-- A `VectorData` document whose `values` entry is the empty array is
always rejected (`min_length=1`). -/
theorem vectordata_empty_values_rejected (kvs : List (String × Json))
    (h : dictGet kvs "values" = some (.arr [])) :
    vector_data.VectorData.validate (.obj kvs) = false := by
  simp [vector_data.VectorData.validate, reqF, h, chkListMin]

/-- A measurement object whose tag differs from "relaxometry_mri" never
validates as `RelaxometryMRIMeasurement`. -/
theorem mri_wrong_tag (kvs : List (String × Json)) (t : String)
    (hget : getA kvs "measurementType" "measurement_type" = some (.str t))
    (hne : t ≠ "relaxometry_mri") :
    relaxometry_mri.RelaxometryMRIMeasurement.validate (.obj kvs) = false := by
  simp [relaxometry_mri.RelaxometryMRIMeasurement.validate, optA, hget, chkLit, hne]

/-- A measurement object whose tag differs from "timeseries" never
validates as `TimeseriesMeasurement`. -/
theorem ts_wrong_tag (kvs : List (String × Json)) (t : String)
    (hget : getA kvs "measurementType" "measurement_type" = some (.str t))
    (hne : t ≠ "timeseries") :
    timeseries.TimeseriesMeasurement.validate (.obj kvs) = false := by
  simp [timeseries.TimeseriesMeasurement.validate, optA, hget, chkLit, hne]

/-- A `ResearchProduct` document whose measurement carries a tag matching
neither variant literal is rejected. -/
theorem rp_unknown_measurement_tag (kvs mkvs : List (String × Json)) (t : String)
    (hm : dictGet kvs "measurement" = some (.obj mkvs))
    (hget : getA mkvs "measurementType" "measurement_type" = some (.str t))
    (h1 : t ≠ "relaxometry_mri") (h2 : t ≠ "timeseries") :
    research_product.ResearchProduct.validate (.obj kvs) = false := by
  have hmri := mri_wrong_tag mkvs t hget h1
  have hts := ts_wrong_tag mkvs t hget h2
  simp [research_product.ResearchProduct.validate, reqF, hm, chkUnion2, hmri, hts]

/-- A `Participant` document whose `identifier` fails the pattern is
rejected. -/
theorem participant_bad_identifier (kvs : List (String × Json)) (s : String)
    (hid : dictGet kvs "identifier" = some (.str s))
    (hbad : participant.identOk s = false) :
    participant.Participant.validate (.obj kvs) = false := by
  simp [participant.Participant.validate, reqF, hid, participant.chkIdent, hbad]

/-! ## Concrete documents used by the claims -/

/-- The fixed JSON-LD context URI of the specification. -/
def ctxUri : String := "https://rap-spec.evidencepub.io/v1/context"

/-- A minimal timeseries measurement object, keyed by wire aliases. -/
def tsMeasKvs : List (String × Json) :=
  [("measurementType", .str "timeseries"), ("specificMeasure", .str "eeg")]

/-- The same timeseries measurement with `specific_measure` keyed by the
internal field name instead of the wire alias. -/
def tsMeasInternalKvs : List (String × Json) :=
  [("measurementType", .str "timeseries"), ("specific_measure", .str "eeg")]

/-- A minimal MRI relaxometry measurement object. -/
def mriMeasKvs : List (String × Json) :=
  [("measurementType", .str "relaxometry_mri"),
   ("specificMeasure", .str "t1_relaxation_time")]

/-- A measurement object whose tag matches neither variant literal. -/
def badTagMeasKvs : List (String × Json) :=
  [("measurementType", .str "diffusion_mri"), ("specificMeasure", .str "fa")]

/-- A minimal participant reference (a plain string identifier). -/
def pRefKvs : List (String × Json) :=
  [("@id", .str "https://example.org/participants/sub-01"),
   ("identifier", .str "sub-01")]

/-- A participant reference whose identifier contains a space and
punctuation — characters outside `[A-Za-z0-9_-]`. -/
def pRefLooseKvs : List (String × Json) :=
  [("@id", .str "https://example.org/participants/sub-01"),
   ("identifier", .str "sub 01!")]

/-- The required fields of a `ResearchProduct` document, parameterised by
the participant reference and the measurement object. -/
def rpKvs (pref meas : List (String × Json)) : List (String × Json) :=
  [("@context", .str ctxUri), ("@type", .str "ResearchProduct"),
   ("@id", .str "https://example.org/products/p1"),
   ("productType", .str "processed_vector"),
   ("processingLevel", .str "analysis_ready"),
   ("participant", .obj pref), ("measurement", .obj meas)]

/-- A minimal valid `ResearchProduct` with a timeseries measurement. -/
def rpDoc : Json := .obj (rpKvs pRefKvs tsMeasKvs)

/-- The same product with an MRI relaxometry measurement. -/
def rpMriDoc : Json := .obj (rpKvs pRefKvs mriMeasKvs)

/-- A product whose measurement tag matches neither variant. -/
def rpBadTagKvs : List (String × Json) := rpKvs pRefKvs badTagMeasKvs

/-- A valid product document carrying one unrecognized top-level field. -/
def rpExtraDoc : Json :=
  .obj (rpKvs pRefKvs tsMeasKvs ++ [("unexpectedField", .str "surprise")])

/-- A valid product whose measurement is keyed by the internal field name
`specific_measure`. -/
def rpInternalMeasDoc : Json := .obj (rpKvs pRefKvs tsMeasInternalKvs)

/-- A product whose embedded participant reference has an identifier with
characters outside `[A-Za-z0-9_-]`. -/
def rpLooseIdentDoc : Json := .obj (rpKvs pRefLooseKvs tsMeasKvs)

/-- A minimal valid `Participant` document. -/
def participantKvs : List (String × Json) :=
  [("@context", .str ctxUri),
   ("@id", .str "https://example.org/participants/sub-01"),
   ("identifier", .str "sub-01")]

/-- The minimal valid `Participant` document. -/
def participantDoc : Json := .obj participantKvs

/-- The same participant with one unrecognized top-level field. -/
def participantExtraDoc : Json :=
  .obj (participantKvs ++ [("unexpectedField", .str "surprise")])

/-- A participant whose identifier contains a space and punctuation. -/
def participantBadIdentKvs : List (String × Json) :=
  [("@context", .str ctxUri),
   ("@id", .str "https://example.org/participants/sub-01"),
   ("identifier", .str "sub 01!")]

/-- A QUDT unit URI, accepted by the `Union[Unit, HttpUrl]` member. -/
def unitUri : Json := .str "http://qudt.org/vocab/unit/MilliSEC"

/-- A valid one-element `VectorData` document. -/
def vdGoodDoc : Json := .obj [("values", .arr [.num 1]), ("unit", unitUri)]

/-- A `VectorData` document whose single value is the string "1.0". -/
def vdStrDoc : Json := .obj [("values", .arr [.str "1.0"]), ("unit", unitUri)]

/-- A confidence interval at level 0.95. -/
def ciGoodDoc : Json :=
  .obj [("level", .num (mkRat 95 100)), ("lower", .num 0), ("upper", .num 1)]

/-- A confidence interval at level 1.1 (out of bounds). -/
def ciHighDoc : Json :=
  .obj [("level", .num (mkRat 11 10)), ("lower", .num 0), ("upper", .num 1)]

/-- A confidence interval whose level is the string "0.95". -/
def ciStrDoc : Json :=
  .obj [("level", .str "0.95"), ("lower", .num 0), ("upper", .num 1)]

/-- Acquisition parameters with a flip angle of exactly 180 degrees. -/
def apFlip180Doc : Json := .obj [("flipAngle", .num 180)]

/-- Acquisition parameters with a flip angle of 181 degrees. -/
def apFlip181Doc : Json := .obj [("flipAngle", .num 181)]

/-- A valid statistical test with p-value 0.5. -/
def stGoodDoc : Json :=
  .obj [("method", .str "t-test"), ("statistic", .num 1),
        ("pValue", .num (mkRat 1 2))]

/-- A statistical test with p-value 1.5 (out of bounds). -/
def stHighDoc : Json :=
  .obj [("method", .str "t-test"), ("statistic", .num 1),
        ("pValue", .num (mkRat 3 2))]

/-- A statistical test with p-value -0.5 (out of bounds). -/
def stNegDoc : Json :=
  .obj [("method", .str "t-test"), ("statistic", .num 1),
        ("pValue", .num (-(mkRat 1 2)))]

/-- A post-hoc comparison whose p-value is 2. -/
def phHighDoc : Json := .obj [("pValue", .num 2)]

/-- A post-hoc comparison whose p-value is -3. -/
def phNegDoc : Json := .obj [("pValue", .num (-(mkRat 3 1)))]

/-- An `AggregateStatistics` document whose `aggregates` list is empty. -/
def aggEmptyDoc : Json :=
  .obj [("@context", .str ctxUri),
        ("@id", .str "https://example.org/aggregates/a1"),
        ("measure", .str "t1_relaxation_time"),
        ("aggregates", .arr [])]

/-! ## The claims -/

/-- C1 (amended): the projector emits a top-level
`additionalProperties: false` for exactly those generated schemas whose
title contains the substring "ResearchProduct" — i.e. for both the
ResearchProduct schema and the ResearchProductCollection schema (whose
title "ResearchProductCollection" also matches the substring check in
`post_process_schema`); the other seven generated schemas contain no
top-level `additionalProperties` key. -/
theorem claim_C1 (t : String) (ht : t ∈ generate_schemas.entityTitles)
    (kvs : List (String × Json)) (i : String)
    (htitle : dictGet kvs "title" = some (.str t))
    (hprops : dictContains kvs "properties" = true) :
    dictContains (generate_schemas.post_process_schema (.obj kvs) i).fields
        "additionalProperties" =
      (t = "ResearchProduct" || t = "ResearchProductCollection") := by
  rw [post_process_contains_aP]
  simp only [generate_schemas.schemaTitle, htitle, hprops, Bool.true_and]
  fin_cases ht <;> decide

/-- C1 counterexample: post-processing the raw ResearchProductCollection
schema yields a document that DOES contain a top-level
`additionalProperties` key, refuting the claim that only the
ResearchProduct schema carries one. -/
theorem claim_C1_counterexample :
    dictContains (generate_schemas.post_process_schema
        generate_schemas.collectionRawSchema
        "https://rap-spec.evidencepub.io/v1/schemas/collection.json").fields
      "additionalProperties" = true := by decide

/-- C1 witness: `claim_C1` applied at the ResearchProductCollection title
with a concrete raw schema. -/
theorem claim_C1_witness :
    dictContains (generate_schemas.post_process_schema
        (.obj generate_schemas.collectionRawSchema.fields)
        "https://rap-spec.evidencepub.io/v1/schemas/collection.json").fields
      "additionalProperties" = true := by
  rw [claim_C1 "ResearchProductCollection" (by decide)
    generate_schemas.collectionRawSchema.fields
    "https://rap-spec.evidencepub.io/v1/schemas/collection.json" rfl (by decide)]
  decide

/-- C2 (amended): Pydantic instance validation ignores unknown top-level
fields on every model (the repository leaves `extra` at its default
`"ignore"` and the validation script calls plain `model_validate`), so a
valid ResearchProduct document with one unrecognized top-level field still
validates successfully, exactly like a Participant document; the
closed-object `additionalProperties: false` policy exists only in the
generated JSON-Schema artifact, which the instance validator does not
consult. -/
theorem claim_C2 :
    validate_research_product rpExtraDoc = true ∧
    research_product.ResearchProduct.validate rpDoc = true ∧
    participant.Participant.validate participantExtraDoc = true ∧
    participant.Participant.validate participantDoc = true := by decide

/-- C2 counterexample: a valid ResearchProduct document carrying the
unrecognized top-level field "unexpectedField" is ACCEPTED by the
instance validator, refuting the claim that it fails. -/
theorem claim_C2_counterexample :
    validate_research_product rpExtraDoc = true := by decide

/-- C3 (amended): `VectorData.values` enforces a minimum of one element
(an empty `values` list is always rejected, `[1.0]` plus a unit is
accepted), but `AggregateStatistics.aggregates` declares no `min_length`,
so a document whose `aggregates` list is empty is accepted. -/
theorem claim_C3 :
    (∀ kvs : List (String × Json), dictGet kvs "values" = some (.arr []) →
        vector_data.VectorData.validate (.obj kvs) = false) ∧
    vector_data.VectorData.validate vdGoodDoc = true ∧
    aggregate.AggregateStatistics.validate aggEmptyDoc = true :=
  ⟨vectordata_empty_values_rejected, by decide, by decide⟩

/-- C3 counterexample: an AggregateStatistics document with
`aggregates = []` is ACCEPTED, refuting the claim that it is rejected. -/
theorem claim_C3_counterexample :
    aggregate.AggregateStatistics.validate aggEmptyDoc = true := by decide

/-- C3 witness: `claim_C3` applied at a concrete empty-values document. -/
theorem claim_C3_witness :
    vector_data.VectorData.validate
      (.obj [("values", Json.arr []), ("unit", unitUri)]) = false :=
  claim_C3.1 _ rfl

/-- C4 (amended): instance validation runs in Pydantic's default lax mode
(the repository never enables strict mode), which coerces numeric strings
to numbers: a confidence-interval `level` given as the string "0.95" is
accepted as 0.95, and a `VectorData` value element given as "1.0" is
accepted as 1. -/
theorem claim_C4 :
    aggregate.ConfidenceInterval.validate ciStrDoc = true ∧
    vector_data.VectorData.validate vdStrDoc = true ∧
    floatLax (Json.str "0.95") = some (mkRat 95 100) ∧
    floatLax (Json.str "1.0") = some 1 := by
  refine ⟨by decide, by decide, by decide, by decide⟩

/-- C4 counterexample: a ConfidenceInterval whose numeric `level` field is
supplied as the JSON string "0.95" is ACCEPTED (auto-converted), refuting
the claim that it fails validation. -/
theorem claim_C4_counterexample :
    aggregate.ConfidenceInterval.validate ciStrDoc = true := by decide

/-- C5 (amended): with `populate_by_name=True` (set on every model), BOTH
the wire alias `specificMeasure` and the internal field name
`specific_measure` are accepted on input; a document keyed by either form
validates successfully. -/
theorem claim_C5 :
    timeseries.TimeseriesMeasurement.validate (.obj tsMeasKvs) = true ∧
    timeseries.TimeseriesMeasurement.validate (.obj tsMeasInternalKvs) = true ∧
    research_product.ResearchProduct.validate rpInternalMeasDoc = true := by decide

/-- C5 counterexample: a timeseries measurement keyed by the internal name
`specific_measure` is ACCEPTED, refuting the claim that only the alias
form is accepted. -/
theorem claim_C5_counterexample :
    timeseries.TimeseriesMeasurement.validate (.obj tsMeasInternalKvs) = true := by
  decide

/-- C6: the polymorphic `measurement` field resolves by the variant tag: a
product whose measurement is tagged "timeseries" validates (with no
MRI-specific fields), one tagged "relaxometry_mri" validates against the
MRI variant, and any measurement whose tag matches neither literal makes
the whole document invalid. -/
theorem claim_C6 :
    research_product.ResearchProduct.validate rpDoc = true ∧
    research_product.ResearchProduct.validate rpMriDoc = true ∧
    (∀ (kvs mkvs : List (String × Json)) (t : String),
      dictGet kvs "measurement" = some (.obj mkvs) →
      getA mkvs "measurementType" "measurement_type" = some (.str t) →
      t ≠ "relaxometry_mri" → t ≠ "timeseries" →
      research_product.ResearchProduct.validate (.obj kvs) = false) :=
  ⟨by decide, by decide, rp_unknown_measurement_tag⟩

/-- C6 witness: `claim_C6` applied at a concrete product whose measurement
is tagged "diffusion_mri". -/
theorem claim_C6_witness :
    research_product.ResearchProduct.validate (.obj rpBadTagKvs) = false :=
  claim_C6.2.2 rpBadTagKvs badTagMeasKvs "diffusion_mri" rfl rfl
    (by decide) (by decide)

/-- C7: numeric range bounds are inclusive: confidence level 1.1 is
rejected while 0.95 is accepted, and flip angle 181 is rejected while
exactly 180 is accepted. -/
theorem claim_C7 :
    aggregate.ConfidenceInterval.validate ciHighDoc = false ∧
    aggregate.ConfidenceInterval.validate ciGoodDoc = true ∧
    relaxometry_mri.AcquisitionParameters.validate apFlip181Doc = false ∧
    relaxometry_mri.AcquisitionParameters.validate apFlip180Doc = true := by decide

/-- C8 (amended): `StatisticalTest.pValue` enforces the inclusive bounds
[0, 1] (1.5 and -0.5 are rejected, 0.5 is accepted), but
`PostHocComparison.pValue` is an unconstrained optional float and accepts
values outside [0, 1] such as 2 and -3. -/
theorem claim_C8 :
    aggregate.StatisticalTest.validate stHighDoc = false ∧
    aggregate.StatisticalTest.validate stNegDoc = false ∧
    aggregate.StatisticalTest.validate stGoodDoc = true ∧
    aggregate.PostHocComparison.validate phHighDoc = true ∧
    aggregate.PostHocComparison.validate phNegDoc = true := by decide

/-- C8 counterexample: a PostHocComparison with `pValue = 2` is ACCEPTED,
refuting the claim that every p-value field rejects values outside [0, 1]. -/
theorem claim_C8_counterexample :
    aggregate.PostHocComparison.validate phHighDoc = true := by decide

/-- C9: schema generation is deterministic and stable: the post-processing
step is a pure function of the raw schema and the supplied `$id` (so the
serialized bytes of two runs on an unchanged definition coincide),
re-running it on already-emitted content changes nothing — key order
included — and the emitted `$id` and `$schema` are exactly the supplied
URI and the fixed draft 2020-12 URI. -/
theorem claim_C9 :
    (∀ (kvs : List (String × Json)) (i : String),
        generate_schemas.post_process_schema
            (generate_schemas.post_process_schema (.obj kvs) i) i =
          generate_schemas.post_process_schema (.obj kvs) i) ∧
    (∀ (kvs : List (String × Json)) (i : String),
        dictGet (generate_schemas.post_process_schema (.obj kvs) i).fields "$id" =
          some (.str i)) ∧
    (∀ (kvs : List (String × Json)) (i : String),
        dictGet (generate_schemas.post_process_schema (.obj kvs) i).fields "$schema" =
          some (.str "https://json-schema.org/draft/2020-12/schema")) :=
  ⟨post_process_idem, post_process_id_stable, post_process_schema_key_stable⟩

/-- C10: the participant identifier pattern `[A-Za-z0-9_-]+` is enforced
only on the top-level Participant entity: a ResearchProduct whose embedded
participant reference has the identifier "sub 01!" still validates, while
any standalone Participant document with an identifier failing the pattern
is rejected (and "sub-01" is accepted). -/
theorem claim_C10 :
    research_product.ResearchProduct.validate rpLooseIdentDoc = true ∧
    (∀ (kvs : List (String × Json)) (s : String),
      dictGet kvs "identifier" = some (.str s) → participant.identOk s = false →
      participant.Participant.validate (.obj kvs) = false) ∧
    participant.identOk "sub 01!" = false ∧
    participant.Participant.validate participantDoc = true :=
  ⟨by decide, participant_bad_identifier, by decide, by decide⟩

/-- C10 witness: `claim_C10` applied at a concrete Participant document
with identifier "sub 01!". -/
theorem claim_C10_witness :
    participant.Participant.validate (.obj participantBadIdentKvs) = false :=
  claim_C10.2.1 participantBadIdentKvs "sub 01!" rfl (by decide)
